import Mathlib

/-!
Verification of the light-connection multiplexing layer of
`protocol/src/protocol.rs` (rust-cardano).

The file shallowly embeds the Rust code: the multiplexed `Connection`
state becomes a Lean structure, each method becomes a state-passing
function, and every Rust `panic!` / failed `assert!` / `.unwrap()` on a
failing value becomes an `Except.error` carrying a `Fatal` reason.
The `ntt` transport, the `NodeId` correlation token, the `packet`
encoders/decoders and the `block` types live in other crates of the
repository (not under `src/`); they are modelled from the spec where
noted in doc comments.
-/

namespace Proto

/-- A fatal outcome: a Rust `panic!`, a failing `assert!`, an
`unimplemented!()`, or an `.unwrap()` of an error/`None`. -/
inductive Fatal where
  /-- `assert!(id >= 1024)` in `LightId::new` failed. -/
  | lightIdAssert
  /-- `panic!("light id created twice")` in `broadcast`. -/
  | lightIdCreatedTwice
  /-- `panic!("ERROR: expecting nodeid but receive stuff")` in `broadcast`. -/
  | expectingNodeId
  /-- `self.ntt.recv().unwrap()` failed: the stream is not positioned at a
  frame header (or is exhausted). -/
  | recvFail
  /-- `self.ntt.recv_len(len).unwrap()` failed: fewer than `len` payload
  bytes are available before the next frame header. -/
  | recvLenFail
  /-- `panic!("oops")` / `panic!("oops2")` in `wait_msg`. -/
  | oops
  /-- `cbor::decode_from_cbor(..).unwrap()` failed. -/
  | cborDecodeFail
  /-- `panic!("pop front")` in `GetBlockHeader::cmd`. -/
  | popFront
  /-- an `unimplemented!()` arm was reached (handshake frame mismatch). -/
  | unexpectedFrame
  deriving DecidableEq, Repr

/-- Modelled from the spec: the identity-token collaborator
(`ntt::protocol::NodeId`), an opaque correlation token carrying a
syn/ack role and a connection-scoped secret value; the crate providing
it is not under `src/`. -/
inductive NodeId where
  | syn (nonce : Nat)
  | ack (nonce : Nat)
  deriving DecidableEq, Repr

/-- Modelled from the spec: `make_from_secret` in the syn role
(`NodeId::make_syn`). -/
def NodeId.make_syn (nonce : Nat) : NodeId := NodeId.syn nonce

/-- Modelled from the spec: the asymmetric syn/ack matching relation
(`matches_as_ack`): a local syn token matches exactly the peer-echoed
ack token derived from the same secret. -/
def NodeId.match_ack : NodeId → NodeId → Bool
  | NodeId.syn a, NodeId.ack b => a == b
  | _, _ => false

/-- Modelled from the spec: `as_bytes(token)`; byte `0` marks the syn
role, byte `1` the ack role, followed by the secret value. -/
def NodeId.as_bytes : NodeId → List Nat
  | NodeId.syn n => [0, n]
  | NodeId.ack n => [1, n]

/-- Modelled from the spec: `decode(bytes) -> token | none`
(`NodeId::from_slice`), the inverse of `as_bytes`. -/
def NodeId.from_slice : List Nat → Option NodeId
  | [0, n] => some (NodeId.syn n)
  | [1, n] => some (NodeId.ack n)
  | _ => none

/-- Modelled from the spec: the control-frame kinds the dispatcher
distinguishes; every kind other than channel-created / channel-closed is
logged as unsupported and ignored, so they are lumped into `other`. -/
inductive ControlHeader where
  | createdNewConnection
  | closeConnection
  | other
  deriving DecidableEq, Repr

/-- Modelled from the spec: one token of the incoming transport stream:
either a frame header (`ControlFrame(kind, id)` / `DataFrame(id, length)`)
or one payload byte. `receive_one_frame` is only meaningful when the
stream is positioned at a header; payload bytes sitting at the head mean
the stream has desynchronized. -/
inductive WireTok where
  | ctrl (ch : ControlHeader) (cid : Nat)
  | dataHdr (cid : Nat) (len : Nat)
  | byte (b : Nat)
  deriving DecidableEq, Repr

/-- Modelled from the spec: the transport collaborator
(`ntt::Connection`): the unread incoming stream plus the
connection-scoped secret (`get_nonce`). The spec flags as an open
question whether the secret is per-channel or per-connection; the
observed behavior (one accessor, no per-channel state) is modelled as a
fixed per-connection value. Writes to the transport never fail and are
not observed by any claim, so they are not recorded. -/
structure NttState where
  input : List WireTok
  nonce : Nat
  deriving DecidableEq, Repr

/-- Modelled from the spec: `receive_one_frame()` / `ntt.recv()`:
a frame header parsed off the stream. -/
inductive NttCommand where
  | control (ch : ControlHeader) (cid : Nat)
  | data (cid : Nat) (len : Nat)
  deriving DecidableEq, Repr

/-- Modelled from the spec: `ntt.recv()`: pull one frame header; fails if
the stream head is a stray payload byte or the stream is exhausted. -/
def nttRecv : NttState → Except Fatal (NttCommand × NttState)
  | ⟨WireTok.ctrl ch cid :: rest, nonce⟩ =>
      Except.ok (NttCommand.control ch cid, ⟨rest, nonce⟩)
  | ⟨WireTok.dataHdr cid len :: rest, nonce⟩ =>
      Except.ok (NttCommand.data cid len, ⟨rest, nonce⟩)
  | ⟨WireTok.byte _ :: _, _⟩ => Except.error Fatal.recvFail
  | ⟨[], _⟩ => Except.error Fatal.recvFail

/-- Modelled from the spec: `receive_exact(length)` / `ntt.recv_len(len)`:
read exactly `len` payload bytes; fails on a frame header or stream end. -/
def nttRecvLen (s : NttState) : Nat → Except Fatal (List Nat × NttState)
  | 0 => Except.ok ([], s)
  | Nat.succ n =>
      match s with
      | ⟨WireTok.byte b :: rest, nonce⟩ =>
          match nttRecvLen ⟨rest, nonce⟩ n with
          | Except.ok (bs, s') => Except.ok (b :: bs, s')
          | Except.error e => Except.error e
      | _ => Except.error Fatal.recvLenFail

/-- `LightId::new(id)`: identifiers 0..1023 are reserved; the constructor
asserts `id >= 1024`. Modelled as a guard returning the `Fatal` of the
failed assertion. Identifiers themselves stay `Nat`. -/
def LightId.new (id : Nat) : Except Fatal Nat :=
  if id < 1024 then Except.error Fatal.lightIdAssert else Except.ok id

/-- `ntt::LIGHT_ID_MIN`, the first non-reserved identifier (the crate
defining it is not under `src/`; value per the reserved range stated in the spec). -/
def LIGHT_ID_MIN : Nat := 1024

/-- `LightConnection`: state of a channel the local side opened. -/
structure LightConnection where
  id : Nat
  node_id : NodeId
  received : Option (List Nat)
  deriving DecidableEq, Repr

/-- `LightConnection::new_with_nodeid`. -/
def LightConnection.new_with_nodeid (id : Nat) (nonce : Nat) : LightConnection :=
  ⟨id, NodeId.make_syn nonce, none⟩

/-- `LightConnection::new_expecting_nodeid`. -/
def LightConnection.new_expecting_nodeid (id : Nat) (node : NodeId) : LightConnection :=
  ⟨id, node, none⟩

/-- `LightConnection::pending_received`. -/
def LightConnection.pending_received (c : LightConnection) : Bool :=
  c.received.isSome

/-- `LightConnection::get_received`: swap the buffer out, leaving `None`
(returns the consumed buffer and the updated connection). -/
def LightConnection.get_received (c : LightConnection) :
    Option (List Nat) × LightConnection :=
  (c.received, { c with received := none })

/-- `LightConnection::receive`: append to the buffer, or initialize it. -/
def LightConnection.receive (c : LightConnection) (bytes : List Nat) :
    LightConnection :=
  { c with received := some (match c.received with
      | none => bytes
      | some v => v ++ bytes) }

/-- `ServerLightConnection`: peer-channel state machine. -/
inductive ServerLightConnection where
  | establishing
  | established (nodeid : NodeId)
  deriving DecidableEq, Repr

/-! `BTreeMap<LightId, _>` is embedded as an association list sorted by
ascending key, so that lookup, insert, remove and in-order iteration
match the semantics of the Rust map. -/

/-- `BTreeMap::get`. -/
def AList.get {α : Type} (k : Nat) : List (Nat × α) → Option α
  | [] => none
  | (k', v) :: rest => if k = k' then some v else AList.get k rest

/-- `BTreeMap::insert` into a key-sorted list: replaces an existing
binding, otherwise inserts at the ascending-key position. -/
def AList.insert {α : Type} (k : Nat) (v : α) : List (Nat × α) → List (Nat × α)
  | [] => [(k, v)]
  | (k', v') :: rest =>
      if k < k' then (k, v) :: (k', v') :: rest
      else if k = k' then (k, v) :: rest
      else (k', v') :: AList.insert k v rest

/-- `BTreeMap::remove` (the removed value itself is never used by the
code under verification, so only the remaining map is returned). -/
def AList.remove {α : Type} (k : Nat) : List (Nat × α) → List (Nat × α)
  | [] => []
  | (k', v') :: rest =>
      if k = k' then rest else (k', v') :: AList.remove k rest

/-- `BTreeMap::contains_key`. -/
def AList.containsKey {α : Type} (k : Nat) (l : List (Nat × α)) : Bool :=
  (AList.get k l).isSome

/-- `BTreeMap<NodeId, LightId>::get` (`map_to_client`); this map is never
iterated, so a plain association list suffices. -/
def NMap.get (k : NodeId) : List (NodeId × Nat) → Option Nat
  | [] => none
  | (k', v) :: rest => if k = k' then some v else NMap.get k rest

/-- `BTreeMap<NodeId, LightId>::insert` (`map_to_client`). -/
def NMap.insert (k : NodeId) (v : Nat) : List (NodeId × Nat) → List (NodeId × Nat)
  | [] => [(k, v)]
  | (k', v') :: rest =>
      if k = k' then (k, v) :: rest else (k', v') :: NMap.insert k v rest

/-- The multiplexed `Connection<T>`: transport handle plus the four
tables (`server_cons`, `client_cons`, `map_to_client`, `next_light_id`). -/
structure Connection where
  ntt : NttState
  server_cons : List (Nat × ServerLightConnection)
  client_cons : List (Nat × LightConnection)
  map_to_client : List (NodeId × Nat)
  next_light_id : Nat
  deriving DecidableEq, Repr

namespace Connection

/-- `Connection::new`: empty tables, `next_light_id = LightId::new(0x401)`
(the assertion `0x401 >= 1024` holds, so no failure is modelled). -/
def new (ntt : NttState) : Connection :=
  ⟨ntt, [], [], [], 0x401⟩

/-- `Connection::find_next_connection_id` scans upward from
`LIGHT_ID_MIN` for a key absent from `client_cons`; the Rust `while`
loop terminates after at most `client_cons.len()` occupied keys, so it
is embedded with that bound as fuel. -/
def scanFreeId (l : List (Nat × LightConnection)) : Nat → Nat → Nat
  | 0, x => x
  | Nat.succ fuel, x =>
      if AList.containsKey x l then scanFreeId l fuel (x + 1) else x

/-- `Connection::find_next_connection_id`. -/
def find_next_connection_id (c : Connection) : Nat :=
  scanFreeId c.client_cons c.client_cons.length LIGHT_ID_MIN

/-- `Connection::get_free_light_id`: return the counter and advance it
(`LightId::next` never re-checks the reserved range). -/
def get_free_light_id (c : Connection) : Nat × Connection :=
  (c.next_light_id, { c with next_light_id := c.next_light_id + 1 })

/-- `Connection::has_bytes_to_read`. -/
def has_bytes_to_read (c : Connection) (id : Nat) : Bool :=
  match AList.get id c.client_cons with
  | none => false
  | some con =>
      match con.received with
      | none => false
      | some v => v.length > 0

/-- `Connection::new_light_connection`: announce the channel to the
transport (write, unmodelled), build the local connection with a
syn-role token from the connection secret, send the token (write,
unmodelled) and register it in `client_cons`. -/
def new_light_connection (c : Connection) (id : Nat) : Connection :=
  let lc := LightConnection.new_with_nodeid id c.ntt.nonce
  { c with client_cons := AList.insert id lc c.client_cons }

/-- `Connection::close_light_connection`: removes the local entry only
(no close frame is sent to the peer, per the `TODO` in the source). -/
def close_light_connection (c : Connection) (id : Nat) : Connection :=
  { c with client_cons := AList.remove id c.client_cons }

end Connection

/-- `Connection::broadcast`, the single dispatcher step: pull one frame
header with `recv` (whose `.unwrap()` is fatal on failure) and route it.
Faithful to the source, the payload of a data frame is read with
`recv_len` only on the paths where the source calls it: the untracked-id
path and the two `println!` error paths inside the Established branch
return without touching the payload bytes. -/
def Connection.broadcast (c : Connection) : Except Fatal Connection :=
  match nttRecv c.ntt with
  | Except.error e => Except.error e
  | Except.ok (cmd, ntt1) =>
    let c1 : Connection := { c with ntt := ntt1 }
    match cmd with
    | NttCommand.control ControlHeader.closeConnection cid =>
        match LightId.new cid with
        | Except.error e => Except.error e
        | Except.ok id =>
            Except.ok { c1 with server_cons := AList.remove id c1.server_cons }
    | NttCommand.control ControlHeader.createdNewConnection cid =>
        match LightId.new cid with
        | Except.error e => Except.error e
        | Except.ok id =>
            match AList.get id c1.server_cons with
            | some _ => Except.error Fatal.lightIdCreatedTwice
            | none =>
                let sc := AList.insert id ServerLightConnection.establishing c1.server_cons
                Except.ok { c1 with server_cons := sc }
    | NttCommand.control ControlHeader.other _ =>
        Except.ok c1
    | NttCommand.data server_id len =>
        match LightId.new server_id with
        | Except.error e => Except.error e
        | Except.ok id =>
            match AList.get id c1.server_cons with
            | some (ServerLightConnection.established nodeid) =>
                match NMap.get nodeid c1.map_to_client with
                | none => Except.ok c1
                | some client_id =>
                    match AList.get client_id c1.client_cons with
                    | none => Except.ok c1
                    | some con =>
                        match nttRecvLen c1.ntt len with
                        | Except.error e => Except.error e
                        | Except.ok (bytes, ntt2) =>
                            Except.ok { c1 with
                              ntt := ntt2,
                              client_cons := AList.insert client_id
                                (con.receive bytes) c1.client_cons }
            | some ServerLightConnection.establishing =>
                match nttRecvLen c1.ntt len with
                | Except.error e => Except.error e
                | Except.ok (bytes, ntt2) =>
                    match NodeId.from_slice bytes with
                    | none => Except.error Fatal.expectingNodeId
                    | some nodeid =>
                        let c2 : Connection := { c1 with
                          ntt := ntt2,
                          server_cons := AList.insert id
                            (ServerLightConnection.established nodeid)
                            (AList.remove id c1.server_cons) }
                        match c2.client_cons.find?
                            (fun p => p.2.node_id.match_ack nodeid) with
                        | none => Except.ok c2
                        | some (z, _) =>
                            Except.ok { c2 with
                              map_to_client := NMap.insert nodeid z c2.map_to_client }
            | none => Except.ok c1

/-- `Connection::wait_msg`: loop `broadcast` until `has_bytes_to_read`,
then return a clone of the buffer. The Rust `while` loop has no bound;
it is embedded with explicit fuel, `none` meaning the bound ran out
before the awaited data arrived. -/
def Connection.wait_msg (c : Connection) (id : Nat) :
    Nat → Option (Except Fatal (List Nat × Connection))
  | 0 => none
  | Nat.succ fuel =>
      if c.has_bytes_to_read id then
        some (match AList.get id c.client_cons with
          | none => Except.error Fatal.oops
          | some con =>
              match con.received with
              | none => Except.error Fatal.oops
              | some v => Except.ok (v, c))
      else
        match c.broadcast with
        | Except.error e => some (Except.error e)
        | Except.ok c' => Connection.wait_msg c' id fuel

/-- Modelled from the spec: the handshake payload (capability/version
descriptor) of the `packet` crate, which is not under `src/`; carried
as its raw bytes since the layer under verification only round-trips it. -/
structure Handshake where
  bytes : List Nat
  deriving DecidableEq, Repr

/-- Modelled from the spec: `cbor::decode_from_cbor::<Handshake>`; the
spec requires only "successful decoding", so decoding fails exactly on
the empty byte string (which no CBOR encoder produces). -/
def decodeHandshake (b : List Nat) : Option Handshake :=
  match b with
  | [] => none
  | _ => some ⟨b⟩

/-- The nested helper `data_recv_on` inside `Connection::handshake`:
expect a data frame on `expected_id` and read its payload; any other
frame kind or identifier hits an `unimplemented!()` arm. -/
def data_recv_on (c : Connection) (expected_id : Nat) :
    Except Fatal (List Nat × Connection) :=
  match nttRecv c.ntt with
  | Except.error e => Except.error e
  | Except.ok (NttCommand.data cid len, ntt1) =>
      if cid = expected_id then
        match nttRecvLen ntt1 len with
        | Except.error e => Except.error e
        | Except.ok (bytes, ntt2) => Except.ok (bytes, { c with ntt := ntt2 })
      else Except.error Fatal.unexpectedFrame
  | Except.ok _ => Except.error Fatal.unexpectedFrame

/-- `Connection::handshake`: open the protocol channel (writes to the
transport are unmodelled), register the local connection, then expect a
channel-created frame followed by two data frames on the peer channel
(handshake payload, then node-id token), and record the peer channel as
Established. The handshake payload argument is only written to the
transport, so it does not appear here. -/
def Connection.handshake (c : Connection) : Except Fatal Connection :=
  let lcid := c.find_next_connection_id
  let lc := LightConnection.new_with_nodeid lcid c.ntt.nonce
  let c0 : Connection := { c with client_cons := AList.insert lcid lc c.client_cons }
  match nttRecv c0.ntt with
  | Except.error e => Except.error e
  | Except.ok (NttCommand.control ControlHeader.createdNewConnection cid, ntt1) =>
      match LightId.new cid with
      | Except.error e => Except.error e
      | Except.ok siv =>
          let c1 : Connection := { c0 with ntt := ntt1 }
          match data_recv_on c1 siv with
          | Except.error e => Except.error e
          | Except.ok (server_bytes_hs, c2) =>
              match decodeHandshake server_bytes_hs with
              | none => Except.error Fatal.cborDecodeFail
              | some _ =>
                  match data_recv_on c2 siv with
                  | Except.error e => Except.error e
                  | Except.ok (server_bytes_nodeid, c3) =>
                      match NodeId.from_slice server_bytes_nodeid with
                      | none => Except.error Fatal.unexpectedFrame
                      | some server_nodeid =>
                          let sc := AList.insert siv
                            (ServerLightConnection.established server_nodeid)
                            c3.server_cons
                          Except.ok { c3 with server_cons := sc }
  | Except.ok _ => Except.error Fatal.unexpectedFrame

namespace command

/-- Modelled from the spec: `block::HeaderHash` (the `block` crate is
not under `src/`); an opaque hash value. -/
structure HeaderHash where
  val : Nat
  deriving DecidableEq, Repr

/-- Modelled from the spec: `block::MainBlockHeader`; opaque to this
layer, carried as a tag value. -/
structure MainBlockHeader where
  val : Nat
  deriving DecidableEq, Repr

/-- Modelled from the spec: `block::BlockHeader`. The exhaustive Rust
match `Some(MainBlockHeader(bh)) | None` in `GetBlockHeader::cmd` shows
the type has the single main-block variant at this revision. -/
inductive BlockHeader where
  | mainBlockHeader (bh : MainBlockHeader)
  deriving DecidableEq, Repr

/-- Modelled from the spec: `packet::BlockHeaderResponse`, the decoded
header-list response variant set {Ok(list-of-headers), other-variants}. -/
inductive BlockHeaderResponse where
  | ok (l : List BlockHeader)
  | other
  deriving DecidableEq, Repr

/-- Modelled from the spec: `cbor::decode_from_cbor::<BlockHeaderResponse>`:
a leading byte selects the variant (0 = Ok, with one header per
remaining byte; anything else = a non-Ok variant); the empty string is
not decodable. -/
def decodeBlockHeaderResponse (b : List Nat) : Option BlockHeaderResponse :=
  match b with
  | [] => none
  | 0 :: rest =>
      some (BlockHeaderResponse.ok
        (rest.map (fun n => BlockHeader.mainBlockHeader ⟨n⟩)))
  | _ :: _ => some BlockHeaderResponse.other

/-- `GetBlockHeader::cmd`: send the get-headers request (writes are
unmodelled), block on the channel, decode the response; return the first
header of a non-empty Ok response, `panic!("pop front")` on an empty Ok
response, and a descriptive error on any other variant. -/
def getBlockHeaderCmd (c : Connection) (id : Nat) (fuel : Nat) :
    Option (Except Fatal (Except String MainBlockHeader × Connection)) :=
  match Connection.wait_msg c id fuel with
  | none => none
  | some (Except.error e) => some (Except.error e)
  | some (Except.ok (dat, c1)) =>
      match decodeBlockHeaderResponse dat with
      | none => some (Except.error Fatal.cborDecodeFail)
      | some (BlockHeaderResponse.ok l) =>
          match l with
          | BlockHeader.mainBlockHeader bh :: _ =>
              some (Except.ok (Except.ok bh, c1))
          | [] => some (Except.error Fatal.popFront)
      | some BlockHeaderResponse.other =>
          some (Except.ok (Except.error "No first main block header", c1))

/-- `GetBlock::cmd`: send the get-blocks request (writes are unmodelled)
and return the raw response bytes unparsed. -/
def getBlockCmd (c : Connection) (id : Nat) (fuel : Nat) :
    Option (Except Fatal (Except String (List Nat) × Connection)) :=
  match Connection.wait_msg c id fuel with
  | none => none
  | some (Except.error e) => some (Except.error e)
  | some (Except.ok (dat, c1)) => some (Except.ok (Except.ok dat, c1))

/-- `Command::execute`, generic over the command body `cmd` (the trait
method): allocate a fresh identifier, open the channel, run one
dispatcher step for the creation ack, run the body, and close the
channel — but, faithful to the `?` in `let ret = self.cmd(..)?`, the
close is skipped when the body returns a command-level error. -/
def execute {α : Type}
    (cmd : Connection → Nat → Option (Except Fatal (Except String α × Connection)))
    (c : Connection) :
    Option (Except Fatal (Except String α × Connection)) :=
  let (id, ca) := c.get_free_light_id
  let cb := ca.new_light_connection id
  match cb.broadcast with
  | Except.error e => some (Except.error e)
  | Except.ok c1 =>
      match cmd c1 id with
      | none => none
      | some (Except.error e) => some (Except.error e)
      | some (Except.ok (Except.error s, c2)) =>
          some (Except.ok (Except.error s, c2))
      | some (Except.ok (Except.ok ret, c2)) =>
          some (Except.ok (Except.ok ret, c2.close_light_connection id))

end command

open command

/-! Helper lemmas about the embedded maps and the transport. -/

theorem AList.get_insert_self {α : Type} (k : Nat) (v : α) (l : List (Nat × α)) :
    AList.get k (AList.insert k v l) = some v := by
  induction l with
  | nil => simp [AList.insert, AList.get]
  | cons hd tl ih =>
      obtain ⟨k', v'⟩ := hd
      by_cases hlt : k < k'
      · simp [AList.insert, AList.get, hlt]
      · by_cases heq : k = k'
        · simp [AList.insert, AList.get, hlt, heq]
        · simp [AList.insert, AList.get, hlt, heq, ih]

theorem AList.get_eq_none_of_not_mem {α : Type} (k : Nat) (l : List (Nat × α))
    (h : k ∉ l.map Prod.fst) : AList.get k l = none := by
  induction l with
  | nil => simp [AList.get]
  | cons hd tl ih =>
      obtain ⟨k', v'⟩ := hd
      simp only [List.map_cons, List.mem_cons] at h
      push_neg at h
      simp [AList.get, h.1, ih h.2]

theorem AList.get_remove_self {α : Type} (k : Nat) (l : List (Nat × α))
    (h : (l.map Prod.fst).Nodup) : AList.get k (AList.remove k l) = none := by
  induction l with
  | nil => simp [AList.remove, AList.get]
  | cons hd tl ih =>
      obtain ⟨k', v'⟩ := hd
      simp only [List.map_cons, List.nodup_cons] at h
      by_cases heq : k = k'
      · subst heq
        simpa [AList.remove] using AList.get_eq_none_of_not_mem k tl h.1
      · simp [AList.remove, heq, AList.get, ih h.2]

theorem NMap.get_insert_same (k : NodeId) (v : Nat) (m : List (NodeId × Nat)) :
    NMap.get k (NMap.insert k v m) = some v := by
  induction m with
  | nil => simp [NMap.insert, NMap.get]
  | cons hd tl ih =>
      obtain ⟨k', v'⟩ := hd
      by_cases heq : k = k'
      · simp [NMap.insert, NMap.get, heq]
      · simp [NMap.insert, NMap.get, heq, ih]

theorem nttRecvLen_exact (bs : List Nat) (rest : List WireTok) (nonce : Nat) :
    nttRecvLen ⟨bs.map WireTok.byte ++ rest, nonce⟩ bs.length
      = Except.ok (bs, ⟨rest, nonce⟩) := by
  induction bs with
  | nil => simp [nttRecvLen]
  | cons b tl ih => simp [nttRecvLen, ih]

/-! Claim theorems. -/

/-- A fresh connection whose stream holds a data frame of length 1 for
the untracked identifier 1025, its one payload byte, and then a further
control frame. -/
def unroutedDataConn : Connection :=
  Connection.new ⟨[WireTok.dataHdr 1025 1, WireTok.byte 9,
    WireTok.ctrl ControlHeader.createdNewConnection 2000], 5⟩

/-- The state `unroutedDataConn` reaches after one dispatcher step. -/
def unroutedDataAfter : Connection :=
  ⟨⟨[WireTok.byte 9, WireTok.ctrl ControlHeader.createdNewConnection 2000], 5⟩,
    [], [], [], 0x401⟩

/-- C1: refuted on the code — a data frame of length 1 for an untracked
(non-reserved) identifier is handled without reading its payload: the
step returns successfully but leaves the payload byte at the head of the
stream, so the following control frame does not parse (the next `recv`
fails fatally), contradicting the claim that exactly `n` payload bytes
are consumed and the next frame parses correctly. -/
theorem C1_step_leaves_payload_unread :
    unroutedDataConn.broadcast = Except.ok unroutedDataAfter ∧
    unroutedDataAfter.ntt.input
      = [WireTok.byte 9, WireTok.ctrl ControlHeader.createdNewConnection 2000] ∧
    unroutedDataAfter.broadcast = Except.error Fatal.recvFail := by
  refine ⟨rfl, rfl, rfl⟩

/-- C7: local command-channel allocation starts at 1025 on a fresh
connection, each allocation returns the current counter (never below
1025, hence never in the reserved range) and strictly smaller than the
next allocation, the post-allocation counter keeps the invariant, and
the client-connection table, being key-sorted, never holds two entries
with the same identifier. -/
theorem C7_allocation (c : Connection) (h : 1025 ≤ c.next_light_id) :
    (∀ nt : NttState, (Connection.new nt).get_free_light_id.1 = 1025) ∧
    1024 < c.get_free_light_id.1 ∧
    c.get_free_light_id.1 < c.get_free_light_id.2.get_free_light_id.1 ∧
    1025 ≤ c.get_free_light_id.2.next_light_id ∧
    (List.Chain' (· < ·) (c.client_cons.map Prod.fst) →
      (c.client_cons.map Prod.fst).Nodup) := by
  refine ⟨fun nt => rfl, ?_, ?_, ?_, ?_⟩
  · exact Nat.lt_of_lt_of_le (by norm_num) h
  · simp [Connection.get_free_light_id]
  · simp [Connection.get_free_light_id]
    omega
  · intro hch
    have hp := List.chain'_iff_pairwise.mp hch
    exact hp.imp fun hlt => Nat.ne_of_lt hlt

/-- Closed instance of `C7_allocation` at a concrete connection. -/
theorem C7_allocation_witness :
    1025 ≤ (Connection.new ⟨[], 0⟩).next_light_id ∧
    ((∀ nt : NttState, (Connection.new nt).get_free_light_id.1 = 1025) ∧
     1024 < (Connection.new ⟨[], 0⟩).get_free_light_id.1 ∧
     (Connection.new ⟨[], 0⟩).get_free_light_id.1
       < (Connection.new ⟨[], 0⟩).get_free_light_id.2.get_free_light_id.1 ∧
     1025 ≤ (Connection.new ⟨[], 0⟩).get_free_light_id.2.next_light_id ∧
     (List.Chain' (· < ·) ((Connection.new ⟨[], 0⟩).client_cons.map Prod.fst) →
       ((Connection.new ⟨[], 0⟩).client_cons.map Prod.fst).Nodup)) :=
  ⟨by decide, C7_allocation (Connection.new ⟨[], 0⟩) (by decide)⟩

/-- A fresh connection whose stream holds a channel-created control
frame for the reserved identifier 5. -/
def reservedCreateConn : Connection :=
  Connection.new ⟨[WireTok.ctrl ControlHeader.createdNewConnection 5], 0⟩

/-- C8: counterexample — a channel-created frame for identifier 5, which
is absent from the peer-connection table, does not insert an Establishing
entry: the step aborts on the reserved-range assertion instead of
returning any updated state. -/
theorem C8_counterexample_reserved_id :
    AList.get 5 reservedCreateConn.server_cons = none ∧
    reservedCreateConn.broadcast = Except.error Fatal.lightIdAssert := by
  refine ⟨rfl, rfl⟩

/-- C8 (amended): on a channel-created control frame, a reserved
identifier (below 1024) aborts on the `LightId::new` assertion; a
non-reserved identifier already present in the peer-connection table
(in any state) fails fatally with the protocol-violation panic; a
non-reserved absent identifier is inserted in state Establishing. -/
theorem C8_created_frame (c : Connection) (cid : Nat) (r : List WireTok)
    (hin : c.ntt.input = WireTok.ctrl ControlHeader.createdNewConnection cid :: r) :
    (cid < 1024 → c.broadcast = Except.error Fatal.lightIdAssert) ∧
    (1024 ≤ cid → ∀ s, AList.get cid c.server_cons = some s →
      c.broadcast = Except.error Fatal.lightIdCreatedTwice) ∧
    (1024 ≤ cid → AList.get cid c.server_cons = none →
      ∃ c', c.broadcast = Except.ok c' ∧
        AList.get cid c'.server_cons = some ServerLightConnection.establishing ∧
        c'.ntt.input = r ∧ c'.client_cons = c.client_cons) := by
  obtain ⟨⟨inp, non⟩, sc, cc, m, nl⟩ := c
  simp only [NttState.mk.injEq] at hin
  subst hin
  refine ⟨?_, ?_, ?_⟩
  · intro h
    simp [Connection.broadcast, nttRecv, LightId.new, h]
  · intro h s hs
    simp [Connection.broadcast, nttRecv, LightId.new, Nat.not_lt.mpr h, hs]
  · intro h hs
    refine ⟨⟨⟨r, non⟩, AList.insert cid ServerLightConnection.establishing sc, cc, m, nl⟩,
      ?_, AList.get_insert_self cid _ _, rfl, rfl⟩
    simp [Connection.broadcast, nttRecv, LightId.new, Nat.not_lt.mpr h, hs]

/-- Closed instance of `C8_created_frame` for identifier 2000 on a fresh
connection. -/
theorem C8_created_frame_witness :
    (Connection.new ⟨[WireTok.ctrl ControlHeader.createdNewConnection 2000], 0⟩).ntt.input
      = WireTok.ctrl ControlHeader.createdNewConnection 2000 :: [] ∧
    ((2000 < 1024 →
      (Connection.new ⟨[WireTok.ctrl ControlHeader.createdNewConnection 2000], 0⟩).broadcast
        = Except.error Fatal.lightIdAssert) ∧
     (1024 ≤ 2000 → ∀ s,
      AList.get 2000 (Connection.new ⟨[WireTok.ctrl ControlHeader.createdNewConnection 2000], 0⟩).server_cons
        = some s →
      (Connection.new ⟨[WireTok.ctrl ControlHeader.createdNewConnection 2000], 0⟩).broadcast
        = Except.error Fatal.lightIdCreatedTwice) ∧
     (1024 ≤ 2000 →
      AList.get 2000 (Connection.new ⟨[WireTok.ctrl ControlHeader.createdNewConnection 2000], 0⟩).server_cons
        = none →
      ∃ c', (Connection.new ⟨[WireTok.ctrl ControlHeader.createdNewConnection 2000], 0⟩).broadcast
          = Except.ok c' ∧
        AList.get 2000 c'.server_cons = some ServerLightConnection.establishing ∧
        c'.ntt.input = [] ∧
        c'.client_cons
          = (Connection.new ⟨[WireTok.ctrl ControlHeader.createdNewConnection 2000], 0⟩).client_cons)) :=
  ⟨rfl, C8_created_frame _ 2000 [] rfl⟩

/-- C10: an incoming channel-closed, channel-created, or data frame whose
identifier lies in the reserved range below 1024 makes the dispatcher
step abort on the `LightId::new` assertion instead of being handled as a
non-fatal routing miss. -/
theorem C10_reserved_id_fatal (c : Connection) (cid len : Nat) (r : List WireTok)
    (h : cid < 1024) :
    Connection.broadcast
        { c with ntt := ⟨WireTok.ctrl ControlHeader.closeConnection cid :: r, c.ntt.nonce⟩ }
      = Except.error Fatal.lightIdAssert ∧
    Connection.broadcast
        { c with ntt := ⟨WireTok.ctrl ControlHeader.createdNewConnection cid :: r, c.ntt.nonce⟩ }
      = Except.error Fatal.lightIdAssert ∧
    Connection.broadcast
        { c with ntt := ⟨WireTok.dataHdr cid len :: r, c.ntt.nonce⟩ }
      = Except.error Fatal.lightIdAssert := by
  refine ⟨?_, ?_, ?_⟩ <;> simp [Connection.broadcast, nttRecv, LightId.new, h]

/-- When the awaited channel already has a non-empty buffer, `wait_msg`
returns immediately with a clone of that buffer and the state unchanged. -/
theorem Connection.wait_msg_ready (c : Connection) (id fuel : Nat)
    (con : LightConnection) (v : List Nat)
    (h1 : AList.get id c.client_cons = some con) (h2 : con.received = some v)
    (h3 : 0 < v.length) :
    Connection.wait_msg c id (fuel + 1) = some (Except.ok (v, c)) := by
  have hb : c.has_bytes_to_read id = true := by
    simp [Connection.has_bytes_to_read, h1, h2, h3]
  simp [Connection.wait_msg, hb, h1, h2]

/-- C2 (amended): whenever `wait_msg` returns bytes `v`, the awaited
channel in the returned state still holds `v` in its buffer — the buffer
is cloned, not cleared — so the channel still reports pending data
immediately after the call. -/
theorem C2_wait_msg_keeps_buffer (fuel : Nat) :
    ∀ (c : Connection) (id : Nat) (v : List Nat) (c' : Connection),
      Connection.wait_msg c id fuel = some (Except.ok (v, c')) →
      ∃ con, AList.get id c'.client_cons = some con ∧ con.received = some v ∧
        0 < v.length ∧ c'.has_bytes_to_read id = true := by
  induction fuel with
  | zero => intro c id v c' h; exact absurd h (by simp [Connection.wait_msg])
  | succ fuel ih =>
      intro c id v c' h
      by_cases hb : c.has_bytes_to_read id
      · rcases hcc : AList.get id c.client_cons with _ | con
        · simp [Connection.has_bytes_to_read, hcc] at hb
        · rcases hrec : con.received with _ | v0
          · simp [Connection.has_bytes_to_read, hcc, hrec] at hb
          · rw [Connection.wait_msg, if_pos hb] at h
            simp only [hcc, hrec] at h
            obtain ⟨hv0, hc⟩ : v0 = v ∧ c = c' := by simpa using h
            rw [← hc, ← hv0]
            have hlen0 : 0 < v0.length := by
              simp only [Connection.has_bytes_to_read, hcc, hrec] at hb
              simpa using hb
            exact ⟨con, hcc, hrec, hlen0, by
              simp [Connection.has_bytes_to_read, hcc, hrec, hlen0]⟩
      · rw [Connection.wait_msg, if_neg hb] at h
        rcases hbr : c.broadcast with e | c''
        · rw [hbr] at h; exact absurd h (by simp)
        · rw [hbr] at h; exact ih c'' id v c' h

/-- A connection whose local channel 1025 already buffers the two bytes
`[1, 2]`, with an empty transport stream. -/
def pendingBufConn : Connection :=
  ⟨⟨[], 5⟩, [], [(1025, ⟨1025, NodeId.syn 5, some [1, 2]⟩)], [], 1026⟩

/-- C2: counterexample — `wait_msg` on channel 1025 returns the buffered
bytes but hands back the connection state completely unchanged, so the
channel still reports pending data, contradicting the claim that the
buffer is cleared before returning. -/
theorem C2_counterexample_buffer_not_cleared :
    Connection.wait_msg pendingBufConn 1025 1
      = some (Except.ok ([1, 2], pendingBufConn)) ∧
    pendingBufConn.has_bytes_to_read 1025 = true :=
  ⟨rfl, rfl⟩

/-- Closed instance of `C2_wait_msg_keeps_buffer` at `pendingBufConn`. -/
theorem C2_wait_msg_keeps_buffer_witness :
    Connection.wait_msg pendingBufConn 1025 1
      = some (Except.ok ([1, 2], pendingBufConn)) ∧
    (∃ con, AList.get 1025 pendingBufConn.client_cons = some con ∧
      con.received = some [1, 2] ∧ 0 < [1, 2].length ∧
      pendingBufConn.has_bytes_to_read 1025 = true) :=
  ⟨rfl, C2_wait_msg_keeps_buffer 1 pendingBufConn 1025 [1, 2] pendingBufConn rfl⟩

/-- C3 (amended): with a full response buffered on the channel,
`GetBlockHeader::cmd` returns the descriptive error on any non-Ok
response, succeeds with the first header of a non-empty Ok response, and
panics (`pop front`) — rather than returning an error — on the Ok-empty
response. -/
theorem C3_cmd_response_cases (c : Connection) (id fuel : Nat)
    (con : LightConnection) (v : List Nat)
    (h1 : AList.get id c.client_cons = some con) (h2 : con.received = some v)
    (h3 : 0 < v.length) :
    (decodeBlockHeaderResponse v = some BlockHeaderResponse.other →
      command.getBlockHeaderCmd c id (fuel + 1)
        = some (Except.ok (Except.error "No first main block header", c))) ∧
    (∀ bh t, decodeBlockHeaderResponse v
        = some (BlockHeaderResponse.ok (BlockHeader.mainBlockHeader bh :: t)) →
      command.getBlockHeaderCmd c id (fuel + 1)
        = some (Except.ok (Except.ok bh, c))) ∧
    (decodeBlockHeaderResponse v = some (BlockHeaderResponse.ok []) →
      command.getBlockHeaderCmd c id (fuel + 1)
        = some (Except.error Fatal.popFront)) := by
  have hw := Connection.wait_msg_ready c id fuel con v h1 h2 h3
  refine ⟨?_, ?_, ?_⟩
  · intro hd; simp [command.getBlockHeaderCmd, hw, hd]
  · intro bh t hd; simp [command.getBlockHeaderCmd, hw, hd]
  · intro hd; simp [command.getBlockHeaderCmd, hw, hd]

/-- A connection whose local channel 1025 buffers the byte string `[0]`,
which decodes to the Ok-empty header-list response. -/
def okEmptyRespConn : Connection :=
  ⟨⟨[], 5⟩, [], [(1025, ⟨1025, NodeId.syn 5, some [0]⟩)], [], 1026⟩

/-- C3: counterexample — on a response decoding to the Ok-empty variant,
`GetBlockHeader::cmd` hits `panic!("pop front")` instead of returning a
descriptive error value. -/
theorem C3_counterexample_ok_empty_panics :
    decodeBlockHeaderResponse [0] = some (BlockHeaderResponse.ok []) ∧
    command.getBlockHeaderCmd okEmptyRespConn 1025 1
      = some (Except.error Fatal.popFront) :=
  ⟨rfl, rfl⟩

/-- A connection whose local channel 1025 buffers the byte string `[1]`,
which decodes to a non-Ok header-list response. -/
def otherRespConn : Connection :=
  ⟨⟨[], 5⟩, [], [(1025, ⟨1025, NodeId.syn 5, some [1]⟩)], [], 1026⟩

/-- Closed instance of `C3_cmd_response_cases` at `otherRespConn`. -/
theorem C3_cmd_response_cases_witness :
    AList.get 1025 otherRespConn.client_cons
      = some ⟨1025, NodeId.syn 5, some [1]⟩ ∧
    (⟨1025, NodeId.syn 5, some [1]⟩ : LightConnection).received = some [1] ∧
    0 < ([1] : List Nat).length ∧
    ((decodeBlockHeaderResponse [1] = some BlockHeaderResponse.other →
      command.getBlockHeaderCmd otherRespConn 1025 (0 + 1)
        = some (Except.ok (Except.error "No first main block header", otherRespConn))) ∧
     (∀ bh t, decodeBlockHeaderResponse [1]
        = some (BlockHeaderResponse.ok (BlockHeader.mainBlockHeader bh :: t)) →
      command.getBlockHeaderCmd otherRespConn 1025 (0 + 1)
        = some (Except.ok (Except.ok bh, otherRespConn))) ∧
     (decodeBlockHeaderResponse [1] = some (BlockHeaderResponse.ok []) →
      command.getBlockHeaderCmd otherRespConn 1025 (0 + 1)
        = some (Except.error Fatal.popFront))) :=
  ⟨rfl, rfl, by decide,
    C3_cmd_response_cases otherRespConn 1025 0 ⟨1025, NodeId.syn 5, some [1]⟩ [1]
      rfl rfl (by decide)⟩

/-- C5: a data frame on a tracked Establishing peer channel whose
payload decodes as a token moves the entry to Established(token) and
consumes the whole payload; if the in-order scan of the local channels
finds one whose token acks the new token, the correlation index maps the
token to that local identifier, and if no local channel matches, the
correlation index is left unchanged and no error occurs. -/
theorem C5_establishing_to_established (c : Connection) (sid : Nat)
    (bs : List Nat) (rest : List WireTok) (tok : NodeId)
    (hin : c.ntt.input = WireTok.dataHdr sid bs.length :: (bs.map WireTok.byte ++ rest))
    (hsid : 1024 ≤ sid)
    (hstate : AList.get sid c.server_cons = some ServerLightConnection.establishing)
    (hdec : NodeId.from_slice bs = some tok) :
    ∃ c', c.broadcast = Except.ok c' ∧
      AList.get sid c'.server_cons = some (ServerLightConnection.established tok) ∧
      c'.ntt.input = rest ∧ c'.client_cons = c.client_cons ∧
      (c.client_cons.find? (fun p => p.2.node_id.match_ack tok) = none →
        c'.map_to_client = c.map_to_client) ∧
      (∀ z lc, c.client_cons.find? (fun p => p.2.node_id.match_ack tok) = some (z, lc) →
        NMap.get tok c'.map_to_client = some z) := by
  obtain ⟨⟨inp, non⟩, sc, cc, m, nl⟩ := c
  dsimp only at hin hstate ⊢
  subst hin
  rcases hf : cc.find? (fun p => p.2.node_id.match_ack tok) with _ | ⟨z, lc⟩
  · refine ⟨⟨⟨rest, non⟩,
      AList.insert sid (ServerLightConnection.established tok) (AList.remove sid sc),
      cc, m, nl⟩, ?_, AList.get_insert_self sid _ _, rfl, rfl, fun _ => rfl, ?_⟩
    · simp [Connection.broadcast, nttRecv, LightId.new, Nat.not_lt.mpr hsid, hstate,
        nttRecvLen_exact, hdec, hf]
    · intro z lc hz
      rw [hf] at hz
      exact absurd hz (by simp)
  · refine ⟨⟨⟨rest, non⟩,
      AList.insert sid (ServerLightConnection.established tok) (AList.remove sid sc),
      cc, NMap.insert tok z m, nl⟩, ?_, AList.get_insert_self sid _ _, rfl, rfl, ?_, ?_⟩
    · simp [Connection.broadcast, nttRecv, LightId.new, Nat.not_lt.mpr hsid, hstate,
        nttRecvLen_exact, hdec, hf]
    · intro hn
      rw [hf] at hn
      exact absurd hn (by simp)
    · intro z' lc' hz
      rw [hf] at hz
      obtain ⟨hz1, _⟩ : z = z' ∧ lc = lc' := by simpa using hz
      rw [← hz1]
      exact NMap.get_insert_same tok z m

/-- Closed instance of `C5_establishing_to_established`: peer channel
2000 in state Establishing receives the token `ack 5`, which acks the
token of local channel 1025; the index gains `ack 5 -> 1025`. -/
theorem C5_establishing_to_established_witness :
    (⟨⟨[WireTok.dataHdr 2000 2, WireTok.byte 1, WireTok.byte 5], 5⟩,
      [(2000, ServerLightConnection.establishing)],
      [(1025, ⟨1025, NodeId.syn 5, none⟩)], [], 1026⟩ : Connection).ntt.input
      = WireTok.dataHdr 2000 ([1, 5] : List Nat).length
          :: (([1, 5] : List Nat).map WireTok.byte ++ []) ∧
    1024 ≤ 2000 ∧
    AList.get 2000 (⟨⟨[WireTok.dataHdr 2000 2, WireTok.byte 1, WireTok.byte 5], 5⟩,
      [(2000, ServerLightConnection.establishing)],
      [(1025, ⟨1025, NodeId.syn 5, none⟩)], [], 1026⟩ : Connection).server_cons
      = some ServerLightConnection.establishing ∧
    NodeId.from_slice [1, 5] = some (NodeId.ack 5) ∧
    (∃ c', (⟨⟨[WireTok.dataHdr 2000 2, WireTok.byte 1, WireTok.byte 5], 5⟩,
        [(2000, ServerLightConnection.establishing)],
        [(1025, ⟨1025, NodeId.syn 5, none⟩)], [], 1026⟩ : Connection).broadcast
        = Except.ok c' ∧
      AList.get 2000 c'.server_cons
        = some (ServerLightConnection.established (NodeId.ack 5)) ∧
      c'.ntt.input = [] ∧
      c'.client_cons = (⟨⟨[WireTok.dataHdr 2000 2, WireTok.byte 1, WireTok.byte 5], 5⟩,
        [(2000, ServerLightConnection.establishing)],
        [(1025, ⟨1025, NodeId.syn 5, none⟩)], [], 1026⟩ : Connection).client_cons ∧
      (([(1025, (⟨1025, NodeId.syn 5, none⟩ : LightConnection))].find?
          (fun p => p.2.node_id.match_ack (NodeId.ack 5)) = none →
        c'.map_to_client = []) ∧
      (∀ z lc, [(1025, (⟨1025, NodeId.syn 5, none⟩ : LightConnection))].find?
          (fun p => p.2.node_id.match_ack (NodeId.ack 5)) = some (z, lc) →
        NMap.get (NodeId.ack 5) c'.map_to_client = some z))) :=
  ⟨rfl, by decide, rfl, rfl,
    C5_establishing_to_established _ 2000 [1, 5] [] (NodeId.ack 5)
      rfl (by decide) rfl rfl⟩

/-- C6: a data frame of length `n` on an Established peer channel whose
token is correlated to an existing local channel consumes exactly the
`n` payload bytes, appends them after any bytes already buffered on that
local channel, and a subsequent `get_received` yields exactly those
bytes once and leaves the buffer empty. -/
theorem C6_established_data_routed (c : Connection) (sid cid : Nat)
    (bs : List Nat) (rest : List WireTok) (tok : NodeId) (con : LightConnection)
    (hin : c.ntt.input = WireTok.dataHdr sid bs.length :: (bs.map WireTok.byte ++ rest))
    (hsid : 1024 ≤ sid)
    (hstate : AList.get sid c.server_cons = some (ServerLightConnection.established tok))
    (hmap : NMap.get tok c.map_to_client = some cid)
    (hcon : AList.get cid c.client_cons = some con) :
    ∃ c', c.broadcast = Except.ok c' ∧ c'.ntt.input = rest ∧
      AList.get cid c'.client_cons = some (con.receive bs) ∧
      (con.receive bs).received = some (con.received.getD [] ++ bs) ∧
      (con.receive bs).get_received.1 = some (con.received.getD [] ++ bs) ∧
      (con.receive bs).get_received.2.received = none ∧
      (con.receive bs).get_received.2.pending_received = false := by
  obtain ⟨⟨inp, non⟩, sc, cc, m, nl⟩ := c
  dsimp only at hin hstate hmap hcon ⊢
  subst hin
  refine ⟨⟨⟨rest, non⟩, sc, AList.insert cid (con.receive bs) cc, m, nl⟩,
    ?_, rfl, AList.get_insert_self cid _ _, ?_, ?_, rfl, rfl⟩
  · simp [Connection.broadcast, nttRecv, LightId.new, Nat.not_lt.mpr hsid, hstate,
      hmap, hcon, nttRecvLen_exact]
  · rcases con with ⟨i, nid, _ | v⟩ <;> simp [LightConnection.receive]
  · rcases con with ⟨i, nid, _ | v⟩ <;>
      simp [LightConnection.receive, LightConnection.get_received]

/-- Closed instance of `C6_established_data_routed`: Established peer
channel 2000, correlated to local channel 1025 already buffering
`[7]`, receives the 2-byte payload `[8, 9]`. -/
theorem C6_established_data_routed_witness :
    (⟨⟨[WireTok.dataHdr 2000 2, WireTok.byte 8, WireTok.byte 9], 5⟩,
      [(2000, ServerLightConnection.established (NodeId.ack 5))],
      [(1025, ⟨1025, NodeId.syn 5, some [7]⟩)],
      [(NodeId.ack 5, 1025)], 1026⟩ : Connection).ntt.input
      = WireTok.dataHdr 2000 ([8, 9] : List Nat).length
          :: (([8, 9] : List Nat).map WireTok.byte ++ []) ∧
    1024 ≤ 2000 ∧
    AList.get 2000 (⟨⟨[WireTok.dataHdr 2000 2, WireTok.byte 8, WireTok.byte 9], 5⟩,
      [(2000, ServerLightConnection.established (NodeId.ack 5))],
      [(1025, ⟨1025, NodeId.syn 5, some [7]⟩)],
      [(NodeId.ack 5, 1025)], 1026⟩ : Connection).server_cons
      = some (ServerLightConnection.established (NodeId.ack 5)) ∧
    NMap.get (NodeId.ack 5) [(NodeId.ack 5, 1025)] = some 1025 ∧
    AList.get 1025 [(1025, (⟨1025, NodeId.syn 5, some [7]⟩ : LightConnection))]
      = some ⟨1025, NodeId.syn 5, some [7]⟩ ∧
    (∃ c', (⟨⟨[WireTok.dataHdr 2000 2, WireTok.byte 8, WireTok.byte 9], 5⟩,
        [(2000, ServerLightConnection.established (NodeId.ack 5))],
        [(1025, ⟨1025, NodeId.syn 5, some [7]⟩)],
        [(NodeId.ack 5, 1025)], 1026⟩ : Connection).broadcast = Except.ok c' ∧
      c'.ntt.input = [] ∧
      AList.get 1025 c'.client_cons
        = some ((⟨1025, NodeId.syn 5, some [7]⟩ : LightConnection).receive [8, 9]) ∧
      ((⟨1025, NodeId.syn 5, some [7]⟩ : LightConnection).receive [8, 9]).received
        = some ((some [7] : Option (List Nat)).getD [] ++ [8, 9]) ∧
      ((⟨1025, NodeId.syn 5, some [7]⟩ : LightConnection).receive [8, 9]).get_received.1
        = some ((some [7] : Option (List Nat)).getD [] ++ [8, 9]) ∧
      ((⟨1025, NodeId.syn 5, some [7]⟩ : LightConnection).receive [8, 9]).get_received.2.received
        = none ∧
      ((⟨1025, NodeId.syn 5, some [7]⟩ : LightConnection).receive [8, 9]).get_received.2.pending_received
        = false) :=
  ⟨rfl, by decide, rfl, rfl, rfl,
    C6_established_data_routed _ 2000 1025 [8, 9] [] (NodeId.ack 5)
      ⟨1025, NodeId.syn 5, some [7]⟩ rfl (by decide) rfl rfl rfl⟩

/-- A run in which the peer acks the command channel, correlates it, and
then answers with a non-Ok header-list response (leading byte 1). -/
def cmdErrRunConn : Connection :=
  Connection.new ⟨[WireTok.ctrl ControlHeader.createdNewConnection 2000,
    WireTok.dataHdr 2000 2, WireTok.byte 1, WireTok.byte 5,
    WireTok.dataHdr 2000 1, WireTok.byte 1], 5⟩

/-- The state `execute GetBlockHeader` returns for `cmdErrRunConn`. -/
def cmdErrAfter : Connection :=
  ⟨⟨[], 5⟩, [(2000, ServerLightConnection.established (NodeId.ack 5))],
    [(1025, ⟨1025, NodeId.syn 5, some [1]⟩)], [(NodeId.ack 5, 1025)], 1026⟩

/-- C4: counterexample — when the command body returns a command-level
error, `execute` propagates it through the `?` operator before reaching
the close call, so the allocated channel 1025 is still present in the
client-connection table of the returned state. -/
theorem C4_counterexample_error_path_leaves_channel :
    command.execute (fun c id => command.getBlockHeaderCmd c id 9) cmdErrRunConn
      = some (Except.ok (Except.error "No first main block header", cmdErrAfter)) ∧
    AList.get 1025 cmdErrAfter.client_cons = some ⟨1025, NodeId.syn 5, some [1]⟩ :=
  ⟨rfl, rfl⟩

/-- C4 (amended): `execute` closes the allocated channel only on the
success path — after a successful command the channel is removed from
the client-connection table (absent, given the table holds no duplicate
keys) — while on the command-error path the early return skips the close
and hands back the state exactly as the command body left it. -/
theorem C4_close_only_on_success {α : Type}
    (cmdf : Connection → Nat → Option (Except Fatal (Except String α × Connection)))
    (c : Connection) :
    (∀ c1 c2 s,
      ((c.get_free_light_id.2).new_light_connection c.next_light_id).broadcast
          = Except.ok c1 →
      cmdf c1 c.next_light_id = some (Except.ok (Except.error s, c2)) →
      command.execute cmdf c = some (Except.ok (Except.error s, c2))) ∧
    (∀ c1 c2 r,
      ((c.get_free_light_id.2).new_light_connection c.next_light_id).broadcast
          = Except.ok c1 →
      cmdf c1 c.next_light_id = some (Except.ok (Except.ok r, c2)) →
      command.execute cmdf c
          = some (Except.ok (Except.ok r, c2.close_light_connection c.next_light_id)) ∧
        ((c2.client_cons.map Prod.fst).Nodup →
          AList.get c.next_light_id
            (c2.close_light_connection c.next_light_id).client_cons = none)) := by
  constructor
  · intro c1 c2 s hb hc
    simp only [Connection.get_free_light_id] at hb
    simp [command.execute, Connection.get_free_light_id, hb, hc]
  · intro c1 c2 r hb hc
    refine ⟨?_, ?_⟩
    · simp only [Connection.get_free_light_id] at hb
      simp [command.execute, Connection.get_free_light_id, hb, hc]
    · intro hnd
      exact AList.get_remove_self _ _ hnd

/-- A run like `cmdErrRunConn` but whose response is the Ok variant with
one header (tag 7). -/
def cmdOkRunConn : Connection :=
  Connection.new ⟨[WireTok.ctrl ControlHeader.createdNewConnection 2000,
    WireTok.dataHdr 2000 2, WireTok.byte 1, WireTok.byte 5,
    WireTok.dataHdr 2000 2, WireTok.byte 0, WireTok.byte 7], 5⟩

/-- The state after the creation-ack dispatcher step of
`execute GetBlockHeader` on `cmdOkRunConn`. -/
def cmdOkAfterAck : Connection :=
  ⟨⟨[WireTok.dataHdr 2000 2, WireTok.byte 1, WireTok.byte 5,
      WireTok.dataHdr 2000 2, WireTok.byte 0, WireTok.byte 7], 5⟩,
    [(2000, ServerLightConnection.establishing)],
    [(1025, ⟨1025, NodeId.syn 5, none⟩)], [], 1026⟩

/-- The state the command body returns on `cmdOkRunConn`, before the
close. -/
def cmdOkBeforeClose : Connection :=
  ⟨⟨[], 5⟩, [(2000, ServerLightConnection.established (NodeId.ack 5))],
    [(1025, ⟨1025, NodeId.syn 5, some [0, 7]⟩)], [(NodeId.ack 5, 1025)], 1026⟩

/-- Closed instance of the success conjunct of `C4_close_only_on_success`
on the concrete run `cmdOkRunConn`. -/
theorem C4_close_only_on_success_witness :
    ((cmdOkRunConn.get_free_light_id.2).new_light_connection cmdOkRunConn.next_light_id).broadcast
      = Except.ok cmdOkAfterAck ∧
    command.getBlockHeaderCmd cmdOkAfterAck cmdOkRunConn.next_light_id 9
      = some (Except.ok (Except.ok ⟨7⟩, cmdOkBeforeClose)) ∧
    (command.execute (fun c id => command.getBlockHeaderCmd c id 9) cmdOkRunConn
        = some (Except.ok (Except.ok (⟨7⟩ : MainBlockHeader),
            cmdOkBeforeClose.close_light_connection cmdOkRunConn.next_light_id)) ∧
      ((cmdOkBeforeClose.client_cons.map Prod.fst).Nodup →
        AList.get cmdOkRunConn.next_light_id
          (cmdOkBeforeClose.close_light_connection cmdOkRunConn.next_light_id).client_cons
          = none)) :=
  ⟨rfl, rfl,
    (C4_close_only_on_success (fun c id => command.getBlockHeaderCmd c id 9)
        cmdOkRunConn).2
      cmdOkAfterAck cmdOkBeforeClose ⟨7⟩ rfl rfl⟩

/-- Reduction of the handshake helper `data_recv_on` on a stream whose
head is a data frame for the expected identifier followed by its full
payload. -/
theorem data_recv_on_shape (sid : Nat) (bs : List Nat) (tail : List WireTok)
    (non : Nat) (sc : List (Nat × ServerLightConnection))
    (cc : List (Nat × LightConnection)) (m : List (NodeId × Nat)) (nl : Nat) :
    data_recv_on
        ⟨⟨WireTok.dataHdr sid bs.length :: (bs.map WireTok.byte ++ tail), non⟩,
          sc, cc, m, nl⟩ sid
      = Except.ok (bs, ⟨⟨tail, non⟩, sc, cc, m, nl⟩) := by
  simp [data_recv_on, nttRecv, nttRecvLen_exact]

/-- A non-empty byte string always decodes as a handshake payload. -/
theorem decodeHandshake_of_ne_nil (hb : List Nat) (h : hb ≠ []) :
    decodeHandshake hb = some ⟨hb⟩ := by
  cases hb with
  | nil => exact absurd rfl h
  | cons b tl => rfl

/-- C9: when the peer answers the handshake with a channel-created frame
for a non-reserved identifier `s` followed by two data frames on `s` —
a decodable handshake payload, then a byte string decoding to token
`t2` — `handshake` succeeds, afterwards the peer-connection table maps
`s` to Established(t2), the correlation index is untouched, and the
whole exchange is consumed from the stream. -/
theorem C9_handshake_ok (c : Connection) (s : Nat) (hb nb : List Nat)
    (rest : List WireTok) (t2 : NodeId)
    (hin : c.ntt.input = WireTok.ctrl ControlHeader.createdNewConnection s ::
      WireTok.dataHdr s hb.length :: (hb.map WireTok.byte ++
        (WireTok.dataHdr s nb.length :: (nb.map WireTok.byte ++ rest))))
    (hs : 1024 ≤ s)
    (hhb : hb ≠ [])
    (hnb : NodeId.from_slice nb = some t2) :
    ∃ c', c.handshake = Except.ok c' ∧
      AList.get s c'.server_cons = some (ServerLightConnection.established t2) ∧
      c'.map_to_client = c.map_to_client ∧
      c'.ntt.input = rest := by
  obtain ⟨⟨inp, non⟩, sc, cc, m, nl⟩ := c
  dsimp only at hin ⊢
  subst hin
  refine ⟨⟨⟨rest, non⟩,
    AList.insert s (ServerLightConnection.established t2) sc,
    AList.insert (Connection.scanFreeId cc cc.length LIGHT_ID_MIN)
      (LightConnection.new_with_nodeid
        (Connection.scanFreeId cc cc.length LIGHT_ID_MIN) non) cc,
    m, nl⟩, ?_, AList.get_insert_self s _ _, rfl, rfl⟩
  simp [Connection.handshake, Connection.find_next_connection_id, nttRecv,
    LightId.new, Nat.not_lt.mpr hs, data_recv_on_shape,
    decodeHandshake_of_ne_nil hb hhb, hnb]

/-- Closed instance of `C9_handshake_ok`: the peer opens channel 2000,
sends the one-byte handshake payload `[42]` and the token bytes `[1, 6]`
(decoding to `ack 6`). -/
theorem C9_handshake_ok_witness :
    (Connection.new ⟨[WireTok.ctrl ControlHeader.createdNewConnection 2000,
        WireTok.dataHdr 2000 1, WireTok.byte 42,
        WireTok.dataHdr 2000 2, WireTok.byte 1, WireTok.byte 6], 7⟩).ntt.input
      = WireTok.ctrl ControlHeader.createdNewConnection 2000 ::
        WireTok.dataHdr 2000 ([42] : List Nat).length
          :: (([42] : List Nat).map WireTok.byte ++
            (WireTok.dataHdr 2000 ([1, 6] : List Nat).length
              :: (([1, 6] : List Nat).map WireTok.byte ++ []))) ∧
    1024 ≤ 2000 ∧ ([42] : List Nat) ≠ [] ∧
    NodeId.from_slice [1, 6] = some (NodeId.ack 6) ∧
    (∃ c', (Connection.new ⟨[WireTok.ctrl ControlHeader.createdNewConnection 2000,
        WireTok.dataHdr 2000 1, WireTok.byte 42,
        WireTok.dataHdr 2000 2, WireTok.byte 1, WireTok.byte 6], 7⟩).handshake
        = Except.ok c' ∧
      AList.get 2000 c'.server_cons
        = some (ServerLightConnection.established (NodeId.ack 6)) ∧
      c'.map_to_client
        = (Connection.new ⟨[WireTok.ctrl ControlHeader.createdNewConnection 2000,
            WireTok.dataHdr 2000 1, WireTok.byte 42,
            WireTok.dataHdr 2000 2, WireTok.byte 1, WireTok.byte 6], 7⟩).map_to_client ∧
      c'.ntt.input = []) :=
  ⟨rfl, by decide, by decide, rfl,
    C9_handshake_ok _ 2000 [42] [1, 6] [] (NodeId.ack 6) rfl (by decide)
      (by decide) rfl⟩

/-- Closed instance of `C10_reserved_id_fatal` at identifier 99. -/
theorem C10_reserved_id_fatal_witness :
    99 < 1024 ∧
    (Connection.broadcast
        { Connection.new ⟨[], 0⟩ with
          ntt := ⟨WireTok.ctrl ControlHeader.closeConnection 99 :: [], (Connection.new ⟨[], 0⟩).ntt.nonce⟩ }
      = Except.error Fatal.lightIdAssert ∧
     Connection.broadcast
        { Connection.new ⟨[], 0⟩ with
          ntt := ⟨WireTok.ctrl ControlHeader.createdNewConnection 99 :: [], (Connection.new ⟨[], 0⟩).ntt.nonce⟩ }
      = Except.error Fatal.lightIdAssert ∧
     Connection.broadcast
        { Connection.new ⟨[], 0⟩ with
          ntt := ⟨WireTok.dataHdr 99 4 :: [], (Connection.new ⟨[], 0⟩).ntt.nonce⟩ }
      = Except.error Fatal.lightIdAssert) :=
  ⟨by decide, C10_reserved_id_fatal (Connection.new ⟨[], 0⟩) 99 4 [] (by decide)⟩

end Proto
